import Mathlib

/-!
Verification of the pycronometer authentication core (`pycronometer/gwt.py`,
`pycronometer/auth.py`, `pycronometer/client.py`) against its specification.

The Python code is shallowly embedded: pure helpers become Lean functions on
`String` / `List Char`; the network is abstracted as a "world" of HTTP
responses fed to the handshake steps; Python exceptions become an explicit
`PyError` error type threaded through `Except`; Python string truthiness
(`if not x:`) is modelled explicitly where the source relies on it.
-/

namespace Pycronometer

/-! ## Constants from `gwt.py` -/

def DEFAULT_GWT_CONTENT_TYPE : String := "text/x-gwt-rpc; charset=UTF-8"

def DEFAULT_GWT_MODULE_BASE : String := "https://cronometer.com/cronometer/"

def DEFAULT_GWT_PERMUTATION : String := "7B121DC5483BF272B1BC1916DA9FA963"

def DEFAULT_GWT_HEADER : String := "2D6A926E3729946302DC68073CB0D550"

def ENV_GWT_PERMUTATION : String := "CRONOMETER_GWT_PERMUTATION"

def ENV_GWT_HEADER : String := "CRONOMETER_GWT_HEADER"

/-- `class GWTConfig(NamedTuple)` from `gwt.py`. -/
structure GWTConfig where
  content_type : String
  module_base : String
  permutation : String
  header : String
deriving DecidableEq

/-- Python truthiness fallback `x or y` where `x` is an optional string:
`None` and the empty string are falsy, so either yields `y`. -/
def pyOrStr (x : Option String) (y : String) : String :=
  match x with
  | none => y
  | some s => if s = "" then y else s

/-- `os.environ.get(key, default)`: the environment is modelled as a function
from variable names to optionally-set values. -/
def os_environ_get (env : String → Option String) (key defaultVal : String) : String :=
  (env key).getD defaultVal

/-- `get_gwt_config` from `gwt.py`:
`permutation or os.environ.get(ENV_GWT_PERMUTATION, DEFAULT_GWT_PERMUTATION)`
and likewise for the header. -/
def get_gwt_config (permutation header : Option String)
    (env : String → Option String) : GWTConfig :=
  { content_type := DEFAULT_GWT_CONTENT_TYPE
    module_base := DEFAULT_GWT_MODULE_BASE
    permutation := pyOrStr permutation (os_environ_get env ENV_GWT_PERMUTATION DEFAULT_GWT_PERMUTATION)
    header := pyOrStr header (os_environ_get env ENV_GWT_HEADER DEFAULT_GWT_HEADER) }

/-- `build_gwt_headers` from `gwt.py`; the Python dict literal is modelled as
an association list in the source's insertion order. -/
def build_gwt_headers (config : GWTConfig) : List (String × String) :=
  [("content-type", config.content_type),
   ("x-gwt-module-base", config.module_base),
   ("x-gwt-permutation", config.permutation)]

/-- `build_authenticate_body` from `gwt.py`, the f-string written as explicit
concatenation at its one substitution point (`config.header`). -/
def build_authenticate_body (config : GWTConfig) : String :=
  "7|0|5|https://cronometer.com/cronometer/|" ++ config.header ++
    "|com.cronometer.shared.rpc.CronometerService|authenticate|" ++
    "java.lang.Integer/3438268394|1|2|3|4|1|5|5|-300|"

/-- `build_generate_token_body` from `gwt.py`, substitution points
`config.header`, `nonce`, `user_id`. -/
def build_generate_token_body (config : GWTConfig) (nonce user_id : String) : String :=
  "7|0|8|https://cronometer.com/cronometer/|" ++ config.header ++
    "|com.cronometer.shared.rpc.CronometerService|generateAuthorizationToken|" ++
    "java.lang.String/2004016611|I|com.cronometer.shared.user.AuthScope/2065601159|" ++
    nonce ++ "|1|2|3|4|4|5|6|6|7|8|" ++ user_id ++ "|3600|7|2|"

/-- `build_logout_body` from `gwt.py`. -/
def build_logout_body (config : GWTConfig) (nonce : String) : String :=
  "7|0|6|https://cronometer.com/cronometer/|" ++ config.header ++
    "|com.cronometer.shared.rpc.CronometerService|logout|" ++
    "java.lang.String/2004016611|" ++ nonce ++ "|1|2|3|4|1|5|6|"

/-! ## Response parsing from `gwt.py`

`USER_ID_PATTERN = re.compile(r"OK\[(\d+),")` used with `.search`:
the leftmost position where literal `OK[` is followed by a non-empty maximal
digit run and then a comma; the captured group is that digit run.
`TOKEN_PATTERN = re.compile(r'"(.*)"')` used with `.search`: `.` does not
match a newline and `.*` is greedy, so the match opens at the leftmost double
quote that has another double quote later on the same line, and closes at the
last double quote on that line; the captured group is everything between. -/

/-- One attempted match of `OK\[(\d+),` anchored at the head of the list:
the greedy `\d+` takes the maximal digit run, which must be non-empty and
followed by a comma. -/
def matchOKAt (cs : List Char) : Option (List Char) :=
  match cs with
  | a :: b :: c :: rest =>
    if a = 'O' ∧ b = 'K' ∧ c = '[' then
      let ds := rest.takeWhile Char.isDigit
      if ds ≠ [] ∧ (rest.drop ds.length).head? = some ',' then some ds else none
    else none
  | _ => none

/-- `re.search` scan for `USER_ID_PATTERN`: try every start position, left to
right. -/
def searchUserId : List Char → Option (List Char)
  | [] => none
  | c :: cs =>
    match matchOKAt (c :: cs) with
    | some ds => some ds
    | none => searchUserId cs

/-- `parse_user_id` from `gwt.py`. -/
def parse_user_id (response_text : String) : Option String :=
  (searchUserId response_text.data).map fun ds => ⟨ds⟩

/-- The portion of the input `.` can span: everything up to the next newline. -/
def lineOf (cs : List Char) : List Char := cs.takeWhile (fun c => c ≠ '\n')

/-- Everything on `line` strictly before its last double quote. -/
def beforeLastQuote (line : List Char) : List Char :=
  ((line.reverse.dropWhile (fun c => c ≠ '\x22')).tail).reverse

/-- `re.search` scan for `TOKEN_PATTERN`: at each position, a match requires a
double quote here and another one later on the same line; the greedy `.*`
then captures up to the last double quote on that line. -/
def searchToken : List Char → Option (List Char)
  | [] => none
  | c :: cs =>
    if c = '\x22' ∧ '\x22' ∈ lineOf cs then some (beforeLastQuote (lineOf cs))
    else searchToken cs

/-- `parse_auth_token` from `gwt.py`. -/
def parse_auth_token (response_text : String) : Option String :=
  (searchToken response_text.data).map fun t => ⟨t⟩

/-! ## Exceptions (`exceptions.py`) and HTTP modelling -/

/-- The exceptions the handshake can raise. `authError` is
`CronometerAuthError`, `gwtVersionError` is `GWTVersionError`; `httpError` is
`requests.HTTPError`, the library-external exception raised by
`response.raise_for_status()` (it is not a `CronometerError`). -/
inductive PyError where
  | httpError (status : Nat)
  | authError (msg : String)
  | gwtVersionError (msg : String)
deriving DecidableEq

/-- Whether an error is the `CronometerAuthError` kind. -/
def PyError.isAuthError : PyError → Bool
  | .authError _ => true
  | _ => false

/-- Whether an error is the `GWTVersionError` kind. -/
def PyError.isGwtVersionError : PyError → Bool
  | .gwtVersionError _ => true
  | _ => false

/-- `response.raise_for_status()` from the `requests` library: raises
`requests.HTTPError` exactly for 4xx and 5xx status codes. -/
def raiseForStatus (status : Nat) : Except PyError Unit :=
  if 400 ≤ status ∧ status < 600 then Except.error (PyError.httpError status) else Except.ok ()

/-- The login page response for `extract_csrf_token`: its HTTP status and the
result of `soup.find("input", {"name": "anticsrf"})` followed by
`.get("value")` — outer `none` means no such input tag, inner `none` means the
tag has no value attribute. -/
structure CsrfPage where
  status : Nat
  anticsrf : Option (Option String)
deriving DecidableEq

/-- `extract_csrf_token` from `auth.py`: `raise_for_status`, then fail if the
tag is absent, then fail if the value is missing or empty (`if not csrf_value`). -/
def extract_csrf_token (page : CsrfPage) : Except PyError String :=
  match raiseForStatus page.status with
  | Except.error e => Except.error e
  | Except.ok _ =>
  match page.anticsrf with
  | none => Except.error (PyError.authError "Could not find CSRF token in login page")
  | some v =>
    match v with
    | none => Except.error (PyError.authError "CSRF token value is missing or invalid")
    | some s =>
      if s = "" then Except.error (PyError.authError "CSRF token value is missing or invalid")
      else Except.ok s

/-- The login POST response for `perform_login`: HTTP status, the truthiness
of `data.get("success")`, and `data.get("error")` (`none` = key absent). -/
structure LoginResp where
  status : Nat
  success : Bool
  errorMsg : Option String
deriving DecidableEq

/-- `perform_login` from `auth.py`. `email`, `password` and `csrf_token` only
populate the request body; the control flow depends on the response alone. -/
def perform_login (email password csrf_token : String) (r : LoginResp) :
    Except PyError Unit :=
  match raiseForStatus r.status with
  | Except.error e => Except.error e
  | Except.ok _ =>
    if r.success then Except.ok ()
    else Except.error (PyError.authError ("Login failed: " ++ r.errorMsg.getD "Unknown login error"))

/-- A GWT RPC response: HTTP status and raw body text. -/
structure GwtResp where
  status : Nat
  text : String
deriving DecidableEq

/-- Message built by `authenticate_gwt` when the user id cannot be parsed;
`response.text[:200]` is the first 200 characters. -/
def gwtUserIdErrMsg (text : String) : String :=
  "Could not parse user ID from GWT response. GWT values may be outdated. Response: " ++
    text.take 200

/-- `authenticate_gwt` from `auth.py`: `raise_for_status`, then
`parse_user_id`; Python's `if not user_id:` treats both `None` and the empty
string as failure. -/
def authenticate_gwt (config : GWTConfig) (r : GwtResp) : Except PyError String :=
  match raiseForStatus r.status with
  | Except.error e => Except.error e
  | Except.ok _ =>
  match parse_user_id r.text with
  | some u =>
    if u = "" then Except.error (PyError.gwtVersionError (gwtUserIdErrMsg r.text))
    else Except.ok u
  | none => Except.error (PyError.gwtVersionError (gwtUserIdErrMsg r.text))

/-- Message built by `generate_export_token` when the token cannot be parsed. -/
def gwtTokenErrMsg (text : String) : String :=
  "Could not parse auth token from GWT response. GWT values may be outdated. Response: " ++
    text.take 200

/-- `generate_export_token` from `auth.py`: `raise_for_status`, then
`parse_auth_token`; `if not token:` treats `None` and `""` as failure. -/
def generate_export_token (config : GWTConfig) (nonce user_id : String) (r : GwtResp) :
    Except PyError String :=
  match raiseForStatus r.status with
  | Except.error e => Except.error e
  | Except.ok _ =>
  match parse_auth_token r.text with
  | some t =>
    if t = "" then Except.error (PyError.gwtVersionError (gwtTokenErrMsg r.text))
    else Except.ok t
  | none => Except.error (PyError.gwtVersionError (gwtTokenErrMsg r.text))

/-! ## Client (`client.py`) -/

/-- The client's mutable identity fields `self._user_id` and `self._nonce`. -/
structure ClientState where
  user_id : Option String
  nonce : Option String
deriving DecidableEq

/-- HTTP requests the client can perform, recorded as a trace. -/
inductive Effect where
  | getLoginPage
  | postLogin
  | postGwtAuthenticate
  | postGwtGenerateToken
deriving DecidableEq

/-- The environment `login()` runs against: the response to each of its three
HTTP requests, plus the `sesnonce` cookie value after the GWT step
(`get_session_nonce`). -/
structure LoginWorld where
  loginPage : CsrfPage
  loginResp : LoginResp
  gwtResp : GwtResp
  sesnonce : Option String
deriving DecidableEq

/-- `get_session_nonce` from `auth.py`: `session.cookies.get("sesnonce")`. -/
def get_session_nonce (w : LoginWorld) : Option String := w.sesnonce

namespace CronometerClient

/-- `CronometerClient.login` from `client.py`: the four steps in source
order. A step's exception propagates immediately: later requests are not
issued and the identity fields are not assigned (the assignments
`self._user_id = ...` / `self._nonce = ...` happen only after
`authenticate_gwt` returns). The result is the outcome, the client state
after the call, and the trace of HTTP requests attempted. -/
def login (config : GWTConfig) (email password : String) (w : LoginWorld)
    (st : ClientState) : Except PyError Unit × ClientState × List Effect :=
  match extract_csrf_token w.loginPage with
  | Except.error e => (Except.error e, st, [Effect.getLoginPage])
  | Except.ok csrf_token =>
    match perform_login email password csrf_token w.loginResp with
    | Except.error e => (Except.error e, st, [Effect.getLoginPage, Effect.postLogin])
    | Except.ok _ =>
      match authenticate_gwt config w.gwtResp with
      | Except.error e =>
        (Except.error e, st, [Effect.getLoginPage, Effect.postLogin, Effect.postGwtAuthenticate])
      | Except.ok uid =>
        (Except.ok (), { user_id := some uid, nonce := get_session_nonce w },
          [Effect.getLoginPage, Effect.postLogin, Effect.postGwtAuthenticate])

/-- `CronometerClient._ensure_authenticated`: `if not self._user_id or not
self._nonce` — `None` and `""` are both falsy. -/
def ensure_authenticated (st : ClientState) : Except PyError Unit :=
  if st.user_id = none ∨ st.user_id = some "" ∨ st.nonce = none ∨ st.nonce = some "" then
    Except.error (PyError.authError "Not authenticated. Call login() first.")
  else Except.ok ()

/-- `CronometerClient._get_export_token`: check authentication, then perform
the `generateAuthorizationToken` RPC. On the authentication check failing, no
RPC request is issued (empty effect trace). -/
def get_export_token (config : GWTConfig) (st : ClientState) (r : GwtResp) :
    Except PyError String × List Effect :=
  match ensure_authenticated st with
  | Except.error e => (Except.error e, [])
  | Except.ok _ =>
    (generate_export_token config (st.nonce.getD "") (st.user_id.getD "") r,
      [Effect.postGwtGenerateToken])

end CronometerClient

/-! ## Verification-layer definitions -/

/-- Split a character list at every pipe, the way the GWT server tokenizes a
request body. `splitPipes` of a list with `n` pipes has `n + 1` groups. -/
def splitPipes : List Char → List (List Char)
  | [] => [[]]
  | c :: cs =>
    if c = '|' then [] :: splitPipes cs
    else
      match splitPipes cs with
      | [] => [[c]]
      | g :: gs => (c :: g) :: gs

/-- Join groups with a pipe between consecutive groups; inverse of
`splitPipes` on pipe-free groups. -/
def joinPipes : List (List Char) → List Char
  | [] => []
  | [s] => s
  | s :: ss => s ++ '|' :: joinPipes ss

/-- The pipe-delimited segments of the `authenticate` RPC body, in order:
version `7`, flags `0`, string-table size `5`, module base URL, the header
hash, service, method, the typed argument marker, and the footer integers,
with the trailing empty segment produced by the final pipe. -/
def authSegs (config : GWTConfig) : List String :=
  ["7", "0", "5", "https://cronometer.com/cronometer/", config.header,
   "com.cronometer.shared.rpc.CronometerService", "authenticate",
   "java.lang.Integer/3438268394", "1", "2", "3", "4", "1", "5", "5", "-300", ""]

/-- The pipe-delimited segments of the `generateAuthorizationToken` RPC body:
string-table size `8`, the header hash, the nonce, the footer carrying
`user_id` and the `3600`-second validity window. -/
def tokenSegs (config : GWTConfig) (nonce user_id : String) : List String :=
  ["7", "0", "8", "https://cronometer.com/cronometer/", config.header,
   "com.cronometer.shared.rpc.CronometerService", "generateAuthorizationToken",
   "java.lang.String/2004016611", "I", "com.cronometer.shared.user.AuthScope/2065601159",
   nonce, "1", "2", "3", "4", "4", "5", "6", "6", "7", "8", user_id, "3600", "7", "2", ""]

/-- Declarative statement that a character list contains the pattern
`OK[<digits>,` somewhere: it decomposes around a literal `OK[`, a non-empty
all-digit run, and a comma. -/
def hasOKL (l : List Char) : Prop :=
  ∃ pre ds post, l = pre ++ 'O' :: 'K' :: '[' :: (ds ++ ',' :: post) ∧
    ds ≠ [] ∧ ∀ c ∈ ds, c.isDigit = true

/-- `hasOKL` on a string's characters: the `USER_ID_PATTERN` is present. -/
def hasUserIdPat (s : String) : Prop := hasOKL s.data

/-- Declarative statement that a character list contains a double-quoted
substring with no newline inside, i.e. that `TOKEN_PATTERN` can match. -/
def hasQuotedPairL (l : List Char) : Prop :=
  ∃ pre mid post, l = pre ++ '\x22' :: (mid ++ '\x22' :: post) ∧ '\n' ∉ mid

/-- `hasQuotedPairL` on a string's characters. -/
def hasQuotedPair (s : String) : Prop := hasQuotedPairL s.data

/-! ## Lemmas about `splitPipes` -/

lemma splitPipes_ne_nil (l : List Char) : splitPipes l ≠ [] := by
  cases l with
  | nil => simp [splitPipes]
  | cons c cs =>
    simp only [splitPipes]
    split
    · simp
    · split <;> simp

lemma splitPipes_nopipe (l : List Char) (h : '|' ∉ l) : splitPipes l = [l] := by
  induction l with
  | nil => rfl
  | cons c cs ih =>
    have hc : c ≠ '|' := fun hh => h (by simp [hh])
    have hcs : '|' ∉ cs := fun hm => h (List.mem_cons_of_mem _ hm)
    simp [splitPipes, hc, ih hcs]

lemma splitPipes_seg (seg rest : List Char) (h : '|' ∉ seg) :
    splitPipes (seg ++ '|' :: rest) = seg :: splitPipes rest := by
  induction seg with
  | nil => simp [splitPipes]
  | cons c cs ih =>
    have hc : c ≠ '|' := fun hh => h (by simp [hh])
    have hcs : '|' ∉ cs := fun hm => h (List.mem_cons_of_mem _ hm)
    simp [splitPipes, hc, ih hcs]

lemma splitPipes_joinPipes (ss : List (List Char)) (hne : ss ≠ [])
    (h : ∀ s ∈ ss, '|' ∉ s) : splitPipes (joinPipes ss) = ss := by
  induction ss with
  | nil => cases hne rfl
  | cons s ss ih =>
    cases ss with
    | nil => simpa [joinPipes] using splitPipes_nopipe s (h s (by simp))
    | cons s2 ss2 =>
      have hrec := ih (by simp) (fun x hx => h x (List.mem_cons_of_mem _ hx))
      simp only [joinPipes]
      rw [splitPipes_seg s _ (h s (by simp)), hrec]

lemma auth_body_data (config : GWTConfig) :
    (build_authenticate_body config).data = joinPipes ((authSegs config).map String.data) := by
  simp only [build_authenticate_body, authSegs, List.map_cons, List.map_nil, joinPipes,
    String.data_append, List.append_assoc]
  rfl

lemma token_body_data (config : GWTConfig) (nonce user_id : String) :
    (build_generate_token_body config nonce user_id).data =
      joinPipes ((tokenSegs config nonce user_id).map String.data) := by
  simp only [build_generate_token_body, tokenSegs, List.map_cons, List.map_nil, joinPipes,
    String.data_append, List.append_assoc]
  rfl

/-! ## Claim C8: RPC request bodies follow the fixed pipe-delimited template -/

/-- C8: for every config, nonce and user id (none containing a pipe, since a
pipe is the wire-format delimiter), splitting the `authenticate` body on `|`
yields exactly the fixed template segments with string-table size `5` as
segment 2 and `config.header` as segment 4, and splitting the
`generateAuthorizationToken` body yields the fixed template with size `8` as
segment 2, `config.header` as segment 4, `nonce` as segment 10, `user_id` as
segment 21 and the literal validity window `3600` as segment 22. -/
theorem rpc_bodies_follow_template (config : GWTConfig) (nonce user_id : String)
    (hh : '|' ∉ config.header.data) (hn : '|' ∉ nonce.data) (hu : '|' ∉ user_id.data) :
    splitPipes (build_authenticate_body config).data = (authSegs config).map String.data ∧
    splitPipes (build_generate_token_body config nonce user_id).data =
      (tokenSegs config nonce user_id).map String.data := by
  constructor
  · rw [auth_body_data]
    apply splitPipes_joinPipes
    · simp [authSegs]
    · intro s hs
      fin_cases hs <;> first | exact hh | decide
  · rw [token_body_data]
    apply splitPipes_joinPipes
    · simp [tokenSegs]
    · intro s hs
      fin_cases hs <;> first | exact hh | exact hn | exact hu | decide

/-- C8 witness at a concrete config, nonce and user id. -/
theorem rpc_bodies_follow_template_witness :
    splitPipes (build_authenticate_body ⟨DEFAULT_GWT_CONTENT_TYPE, DEFAULT_GWT_MODULE_BASE,
        "P", "H"⟩).data =
      (authSegs ⟨DEFAULT_GWT_CONTENT_TYPE, DEFAULT_GWT_MODULE_BASE, "P", "H"⟩).map String.data ∧
    splitPipes (build_generate_token_body ⟨DEFAULT_GWT_CONTENT_TYPE, DEFAULT_GWT_MODULE_BASE,
        "P", "H"⟩ "somenonce" "12345").data =
      (tokenSegs ⟨DEFAULT_GWT_CONTENT_TYPE, DEFAULT_GWT_MODULE_BASE, "P", "H"⟩
        "somenonce" "12345").map String.data :=
  rpc_bodies_follow_template ⟨DEFAULT_GWT_CONTENT_TYPE, DEFAULT_GWT_MODULE_BASE, "P", "H"⟩
    "somenonce" "12345" (by decide) (by decide) (by decide)

/-! ## Claim C9: the encoders are deterministic -/

/-- C9: `build_authenticate_body`, `build_generate_token_body` and
`build_gwt_headers` are pure functions of their arguments: any two calls with
equal inputs produce byte-identical output. In this embedding the functions
are translated from source without any time, randomness or environment
dependence (`os.environ` is read only by `get_gwt_config`), so equal inputs
give equal outputs by congruence. -/
theorem encoders_deterministic (c₁ c₂ : GWTConfig) (n₁ n₂ u₁ u₂ : String)
    (hc : c₁ = c₂) (hn : n₁ = n₂) (hu : u₁ = u₂) :
    build_authenticate_body c₁ = build_authenticate_body c₂ ∧
    build_generate_token_body c₁ n₁ u₁ = build_generate_token_body c₂ n₂ u₂ ∧
    build_gwt_headers c₁ = build_gwt_headers c₂ := by
  subst hc
  subst hn
  subst hu
  exact ⟨rfl, rfl, rfl⟩

/-- C9 witness at a concrete repeated input. -/
theorem encoders_deterministic_witness :
    build_authenticate_body ⟨DEFAULT_GWT_CONTENT_TYPE, DEFAULT_GWT_MODULE_BASE, "P", "H"⟩ =
      build_authenticate_body ⟨DEFAULT_GWT_CONTENT_TYPE, DEFAULT_GWT_MODULE_BASE, "P", "H"⟩ ∧
    build_generate_token_body ⟨DEFAULT_GWT_CONTENT_TYPE, DEFAULT_GWT_MODULE_BASE, "P", "H"⟩
        "n" "u" =
      build_generate_token_body ⟨DEFAULT_GWT_CONTENT_TYPE, DEFAULT_GWT_MODULE_BASE, "P", "H"⟩
        "n" "u" ∧
    build_gwt_headers ⟨DEFAULT_GWT_CONTENT_TYPE, DEFAULT_GWT_MODULE_BASE, "P", "H"⟩ =
      build_gwt_headers ⟨DEFAULT_GWT_CONTENT_TYPE, DEFAULT_GWT_MODULE_BASE, "P", "H"⟩ :=
  encoders_deterministic _ _ "n" "n" "u" "u" rfl rfl rfl

/-! ## Claim C6: ProtocolConfig resolution precedence (corrected) -/

/-- C6 counterexample: an explicitly supplied empty-string permutation
argument is NOT used — Python's `permutation or os.environ.get(...)` treats
`""` as falsy, so the environment override wins instead. This refutes the
claim that an explicit constructor argument is always used. -/
theorem get_gwt_config_empty_arg_counterexample :
    (get_gwt_config (some "") none
        (fun k => if k = ENV_GWT_PERMUTATION then some "ENVPERM" else none)).permutation =
      "ENVPERM" ∧ ("ENVPERM" : String) ≠ "" := by
  constructor
  · rfl
  · decide

/-- C6 amended: for each overridable field independently, a NON-EMPTY
explicit argument takes precedence; otherwise (argument absent or the empty
string) a set environment variable is used; otherwise the built-in default is
used. -/
theorem get_gwt_config_precedence (permutation header : Option String)
    (env : String → Option String) :
    (∀ s, permutation = some s → s ≠ "" →
       (get_gwt_config permutation header env).permutation = s) ∧
    (permutation = none ∨ permutation = some "" →
       ∀ v, env ENV_GWT_PERMUTATION = some v →
         (get_gwt_config permutation header env).permutation = v) ∧
    (permutation = none ∨ permutation = some "" → env ENV_GWT_PERMUTATION = none →
       (get_gwt_config permutation header env).permutation = DEFAULT_GWT_PERMUTATION) ∧
    (∀ s, header = some s → s ≠ "" →
       (get_gwt_config permutation header env).header = s) ∧
    (header = none ∨ header = some "" →
       ∀ v, env ENV_GWT_HEADER = some v →
         (get_gwt_config permutation header env).header = v) ∧
    (header = none ∨ header = some "" → env ENV_GWT_HEADER = none →
       (get_gwt_config permutation header env).header = DEFAULT_GWT_HEADER) := by
  refine ⟨?_, ?_, ?_, ?_, ?_, ?_⟩
  · intro s hs hne
    subst hs
    simp [get_gwt_config, pyOrStr, hne]
  · rintro (rfl | rfl) v hv <;> simp [get_gwt_config, pyOrStr, os_environ_get, hv]
  · rintro (rfl | rfl) hv <;> simp [get_gwt_config, pyOrStr, os_environ_get, hv]
  · intro s hs hne
    subst hs
    simp [get_gwt_config, pyOrStr, hne]
  · rintro (rfl | rfl) v hv <;> simp [get_gwt_config, pyOrStr, os_environ_get, hv]
  · rintro (rfl | rfl) hv <;> simp [get_gwt_config, pyOrStr, os_environ_get, hv]

/-- C6 witness: a non-empty explicit permutation argument wins over a set
environment variable, while the header (explicitly supplied as the falsy
empty string) falls back to its environment override. -/
theorem get_gwt_config_precedence_witness :
    (get_gwt_config (some "ARGP") (some "")
        (fun k => if k = ENV_GWT_PERMUTATION then some "EP"
                  else if k = ENV_GWT_HEADER then some "EH" else none)).permutation = "ARGP" ∧
    (get_gwt_config (some "ARGP") (some "")
        (fun k => if k = ENV_GWT_PERMUTATION then some "EP"
                  else if k = ENV_GWT_HEADER then some "EH" else none)).header = "EH" :=
  ⟨(get_gwt_config_precedence (some "ARGP") (some "") _).1 "ARGP" rfl (by decide),
   (get_gwt_config_precedence (some "ARGP") (some "") _).2.2.2.2.1 (Or.inr rfl) "EH" (by decide)⟩

/-! ## Claim C3: non-2xx on the login POST (corrected) -/

/-- C3 counterexample: an HTTP 500 on the login POST makes `perform_login`
raise `requests.HTTPError` (from `response.raise_for_status()`), which is not
the `CronometerAuthError` kind the claim asserts. -/
theorem perform_login_non2xx_counterexample :
    perform_login "e" "p" "c" ⟨500, true, none⟩ = Except.error (PyError.httpError 500) ∧
    (PyError.httpError 500).isAuthError = false :=
  ⟨rfl, rfl⟩

/-- C3 amended: a 4xx/5xx status on the login POST raises
`requests.HTTPError` (a transport-library error, not `CronometerAuthError`);
any other status proceeds to the JSON check, where a false-or-absent success
flag raises `CronometerAuthError` with the server-supplied (or default)
message, and a truthy success flag succeeds. -/
theorem perform_login_error_kinds (email password csrf_token : String) (r : LoginResp) :
    (400 ≤ r.status ∧ r.status < 600 →
       perform_login email password csrf_token r = Except.error (PyError.httpError r.status)) ∧
    (¬(400 ≤ r.status ∧ r.status < 600) → r.success = false →
       perform_login email password csrf_token r =
         Except.error (PyError.authError ("Login failed: " ++
           r.errorMsg.getD "Unknown login error"))) ∧
    (¬(400 ≤ r.status ∧ r.status < 600) → r.success = true →
       perform_login email password csrf_token r = Except.ok ()) := by
  refine ⟨?_, ?_, ?_⟩
  · intro h
    simp [perform_login, raiseForStatus, h]
  · intro h hs
    simp [perform_login, raiseForStatus, h, hs]
  · intro h hs
    simp [perform_login, raiseForStatus, h, hs]

/-- C3 witness: a 403 raises `HTTPError`; a 200 with `success: false` and no
error message raises `CronometerAuthError` with the default message. -/
theorem perform_login_error_kinds_witness :
    perform_login "e" "p" "c" ⟨403, true, none⟩ = Except.error (PyError.httpError 403) ∧
    perform_login "e" "p" "c" ⟨200, false, none⟩ =
      Except.error (PyError.authError "Login failed: Unknown login error") :=
  ⟨(perform_login_error_kinds "e" "p" "c" ⟨403, true, none⟩).1 (by decide),
   (perform_login_error_kinds "e" "p" "c" ⟨200, false, none⟩).2.1 (by decide) rfl⟩

/-! ## Claim C5: token minting requires a session identity -/

/-- C5: calling `_get_export_token` while the stored identity is absent or
incomplete (`_user_id` or `_nonce` unset) fails with `CronometerAuthError`
whose message instructs the caller to log in first, and performs no RPC call
(the effect trace is empty). -/
theorem get_export_token_requires_login (config : GWTConfig) (st : ClientState) (r : GwtResp)
    (h : st.user_id = none ∨ st.nonce = none) :
    CronometerClient.get_export_token config st r =
      (Except.error (PyError.authError "Not authenticated. Call login() first."), []) := by
  rcases h with h | h <;>
    simp [CronometerClient.get_export_token, CronometerClient.ensure_authenticated, h]

/-- C5 witness: a freshly constructed client (no identity at all). -/
theorem get_export_token_requires_login_witness :
    CronometerClient.get_export_token
        ⟨DEFAULT_GWT_CONTENT_TYPE, DEFAULT_GWT_MODULE_BASE, "P", "H"⟩ ⟨none, none⟩ ⟨200, "x"⟩ =
      (Except.error (PyError.authError "Not authenticated. Call login() first."), []) :=
  get_export_token_requires_login _ ⟨none, none⟩ ⟨200, "x"⟩ (Or.inl rfl)

/-! ## Lemmas about `parse_user_id` -/

lemma strMk_data (s : String) : (⟨s.data⟩ : String) = s := by
  cases s
  rfl

lemma str_ne_empty_data {s : String} (h : s ≠ "") : s.data ≠ [] := by
  intro hd
  apply h
  cases s with
  | mk d =>
    cases hd
    rfl

lemma takeWhile_all_append (p : Char → Bool) (l₁ l₂ : List Char)
    (h : ∀ c ∈ l₁, p c = true) :
    (l₁ ++ l₂).takeWhile p = l₁ ++ l₂.takeWhile p := by
  induction l₁ with
  | nil => simp
  | cons c cs ih =>
    simp [List.takeWhile_cons, h c (by simp), ih (fun x hx => h x (by simp [hx]))]

lemma takeWhile_dropWhile_eq_nil (p : Char → Bool) (l : List Char) :
    (l.dropWhile p).takeWhile p = [] := by
  induction l with
  | nil => simp
  | cons c cs ih =>
    by_cases hc : p c = true
    · simp [List.dropWhile_cons, hc, ih]
    · simp [List.dropWhile_cons, hc, List.takeWhile_cons]

lemma matchOKAt_some_of (ds post : List Char) (hne : ds ≠ [])
    (hd : ∀ c ∈ ds, c.isDigit = true) :
    matchOKAt ('O' :: 'K' :: '[' :: (ds ++ ',' :: post)) = some ds := by
  have ht : (ds ++ ',' :: post).takeWhile Char.isDigit = ds := by
    rw [takeWhile_all_append Char.isDigit ds (',' :: post) hd]
    simp [List.takeWhile_cons]
  simp only [matchOKAt, ht, if_true, and_true, true_and, and_self, List.drop_left]
  simp [hne]

lemma matchOKAt_not_O {c : Char} (hc : c ≠ 'O') (cs : List Char) :
    matchOKAt (c :: cs) = none := by
  cases cs with
  | nil => rfl
  | cons b cs2 =>
    cases cs2 with
    | nil => rfl
    | cons d cs3 => simp [matchOKAt, hc]

lemma matchOKAt_eq_some {l ds : List Char} (h : matchOKAt l = some ds) :
    ∃ post, l = 'O' :: 'K' :: '[' :: (ds ++ ',' :: post) ∧ ds ≠ [] ∧
      ∀ c ∈ ds, c.isDigit = true := by
  match l with
  | [] => simp [matchOKAt] at h
  | [a] => simp [matchOKAt] at h
  | [a, b] => simp [matchOKAt] at h
  | a :: b :: c :: rest =>
    simp only [matchOKAt] at h
    split at h
    · next habc =>
      obtain ⟨ha, hb, hc⟩ := habc
      subst ha
      subst hb
      subst hc
      split at h
      · next hcond =>
        injection h with hds
        obtain ⟨hne, hhead⟩ := hcond
        rw [hds] at hne hhead
        obtain ⟨t, ht⟩ := List.takeWhile_prefix Char.isDigit (l := rest)
        rw [hds] at ht
        have hdrop : rest.drop ds.length = t := by
          rw [← ht]
          exact List.drop_left ds t
        rw [hdrop] at hhead
        cases t with
        | nil => simp at hhead
        | cons x xs =>
          simp only [List.head?_cons, Option.some.injEq] at hhead
          subst hhead
          refine ⟨xs, ?_, hne, ?_⟩
          · rw [← ht]
          · intro c hc
            exact List.mem_takeWhile_imp (p := Char.isDigit) (l := rest) (by rw [hds]; exact hc)
      · cases h
    · cases h

lemma hasOKL_nil : ¬ hasOKL [] := by
  rintro ⟨pre, ds, post, hl, hne, hd⟩
  cases pre <;> simp at hl

lemma hasOKL_of_matchOKAt {l ds : List Char} (h : matchOKAt l = some ds) : hasOKL l := by
  obtain ⟨post, hl, hne, hd⟩ := matchOKAt_eq_some h
  exact ⟨[], ds, post, by simp [hl], hne, hd⟩

lemma hasOKL_cons_iff {c : Char} {cs : List Char} (h : matchOKAt (c :: cs) = none) :
    hasOKL (c :: cs) ↔ hasOKL cs := by
  constructor
  · rintro ⟨pre, ds, post, hl, hne, hd⟩
    cases pre with
    | nil =>
      exfalso
      simp only [List.nil_append, List.cons.injEq] at hl
      obtain ⟨hc, hcs⟩ := hl
      subst hc
      rw [hcs] at h
      rw [matchOKAt_some_of ds post hne hd] at h
      cases h
    | cons c0 pre0 =>
      simp only [List.cons_append, List.cons.injEq] at hl
      exact ⟨pre0, ds, post, hl.2, hne, hd⟩
  · rintro ⟨pre, ds, post, hl, hne, hd⟩
    exact ⟨c :: pre, ds, post, by simp [hl], hne, hd⟩

lemma searchUserId_eq_none_iff (l : List Char) : searchUserId l = none ↔ ¬ hasOKL l := by
  induction l with
  | nil => simpa [searchUserId] using hasOKL_nil
  | cons c cs ih =>
    cases hm : matchOKAt (c :: cs) with
    | some ds =>
      simp only [searchUserId, hm]
      constructor
      · intro h; cases h
      · intro hn; exact absurd (hasOKL_of_matchOKAt hm) hn
    | none =>
      simp only [searchUserId, hm]
      rw [ih, hasOKL_cons_iff hm]

lemma parse_user_id_eq_none_iff (s : String) :
    parse_user_id s = none ↔ ¬ hasUserIdPat s := by
  unfold parse_user_id hasUserIdPat
  rw [Option.map_eq_none']
  exact searchUserId_eq_none_iff s.data

/-! ## Claim C4: `parse_user_id` round-trips, malformed input decodes to None -/

/-- C4: for every non-empty digit string `u` and any suffix, parsing
`OK[u,suffix` (with or without the `//` framing bytes) returns exactly `u`;
and every string lacking the `OK[<digits>,` pattern parses to `none` — the
function is total, so it never crashes, and never returns a wrong value. -/
theorem parse_user_id_roundtrip :
    (∀ u t : String, u ≠ "" → (∀ c ∈ u.data, c.isDigit = true) →
       parse_user_id ("//OK[" ++ u ++ "," ++ t) = some u ∧
       parse_user_id ("OK[" ++ u ++ "," ++ t) = some u) ∧
    (∀ s : String, ¬ hasUserIdPat s → parse_user_id s = none) := by
  constructor
  · intro u t hne hd
    have hun : u.data ≠ [] := str_ne_empty_data hne
    have hok : searchUserId ('O' :: 'K' :: '[' :: (u.data ++ ',' :: t.data)) = some u.data := by
      simp only [searchUserId, matchOKAt_some_of u.data t.data hun hd]
    constructor
    · have hdata : ("//OK[" ++ u ++ "," ++ t).data =
          '/' :: '/' :: 'O' :: 'K' :: '[' :: (u.data ++ ',' :: t.data) := by
        simp only [String.data_append, List.append_assoc]
        rfl
      have h1 : matchOKAt ('/' :: '/' :: 'O' :: 'K' :: '[' :: (u.data ++ ',' :: t.data)) =
          none := matchOKAt_not_O (by decide) _
      have h2 : matchOKAt ('/' :: 'O' :: 'K' :: '[' :: (u.data ++ ',' :: t.data)) =
          none := matchOKAt_not_O (by decide) _
      unfold parse_user_id
      rw [hdata]
      rw [show searchUserId ('/' :: '/' :: 'O' :: 'K' :: '[' :: (u.data ++ ',' :: t.data)) =
            searchUserId ('/' :: 'O' :: 'K' :: '[' :: (u.data ++ ',' :: t.data)) by
          simp only [searchUserId, h1]]
      rw [show searchUserId ('/' :: 'O' :: 'K' :: '[' :: (u.data ++ ',' :: t.data)) =
            searchUserId ('O' :: 'K' :: '[' :: (u.data ++ ',' :: t.data)) by
          simp only [searchUserId, h2]]
      rw [hok]
      simp [strMk_data]
    · have hdata : ("OK[" ++ u ++ "," ++ t).data =
          'O' :: 'K' :: '[' :: (u.data ++ ',' :: t.data) := by
        simp only [String.data_append, List.append_assoc]
        rfl
      unfold parse_user_id
      rw [hdata, hok]
      simp [strMk_data]
  · intro s h
    exact (parse_user_id_eq_none_iff s).mpr h

/-- C4 witness: the spec's own example response decodes to `12345`, and a
patternless string decodes to `none`. -/
theorem parse_user_id_roundtrip_witness :
    parse_user_id ("//OK[" ++ "12345" ++ "," ++ "2,1,...]") = some "12345" :=
  (parse_user_id_roundtrip.1 "12345" "2,1,...]" (by decide) (by decide)).1

/-! ## Claim C1: GWT identity-exchange parse failure during `login()` -/

/-- C1: when the earlier handshake steps succeed, the identity-exchange
response has a non-error HTTP status, and its text contains no `OK[<digits>,`
pattern, then `login()` fails with `GWTVersionError` (not
`CronometerAuthError`), the error message is the fixed diagnostic text
followed by the first 200 characters of the raw response, and the client's
stored `_user_id` / `_nonce` fields are returned exactly as they were. -/
theorem login_gwt_parse_failure (config : GWTConfig) (email password csrf : String)
    (w : LoginWorld) (st : ClientState)
    (h1 : extract_csrf_token w.loginPage = Except.ok csrf)
    (h2 : perform_login email password csrf w.loginResp = Except.ok ())
    (h3 : raiseForStatus w.gwtResp.status = Except.ok ())
    (h4 : ¬ hasUserIdPat w.gwtResp.text) :
    CronometerClient.login config email password w st =
      (Except.error (PyError.gwtVersionError (gwtUserIdErrMsg w.gwtResp.text)), st,
        [Effect.getLoginPage, Effect.postLogin, Effect.postGwtAuthenticate]) ∧
    gwtUserIdErrMsg w.gwtResp.text =
      "Could not parse user ID from GWT response. GWT values may be outdated. Response: " ++
        w.gwtResp.text.take 200 := by
  have hid : parse_user_id w.gwtResp.text = none := (parse_user_id_eq_none_iff _).mpr h4
  have hga : authenticate_gwt config w.gwtResp =
      Except.error (PyError.gwtVersionError (gwtUserIdErrMsg w.gwtResp.text)) := by
    simp [authenticate_gwt, h3, hid]
  refine ⟨?_, rfl⟩
  simp [CronometerClient.login, h1, h2, hga]

/-- C1 witness: a concrete world whose GWT response has no user-id pattern,
against a client that already holds an identity from a previous login; the
identity is untouched. -/
theorem login_gwt_parse_failure_witness :
    CronometerClient.login ⟨DEFAULT_GWT_CONTENT_TYPE, DEFAULT_GWT_MODULE_BASE, "P", "H"⟩
        "e" "p"
        ⟨⟨200, some (some "csrftok")⟩, ⟨200, true, none⟩, ⟨200, "//EX[,bad]"⟩, some "n2"⟩
        ⟨some "olduid", some "oldnonce"⟩ =
      (Except.error (PyError.gwtVersionError (gwtUserIdErrMsg "//EX[,bad]")),
        ⟨some "olduid", some "oldnonce"⟩,
        [Effect.getLoginPage, Effect.postLogin, Effect.postGwtAuthenticate]) :=
  (login_gwt_parse_failure ⟨DEFAULT_GWT_CONTENT_TYPE, DEFAULT_GWT_MODULE_BASE, "P", "H"⟩
    "e" "p" "csrftok"
    ⟨⟨200, some (some "csrftok")⟩, ⟨200, true, none⟩, ⟨200, "//EX[,bad]"⟩, some "n2"⟩
    ⟨some "olduid", some "oldnonce"⟩ rfl rfl rfl
    ((searchUserId_eq_none_iff ("//EX[,bad]").data).mp (by decide))).1

/-! ## Claim C7: missing CSRF field aborts before the credentialed POST -/

/-- C7: if the login-page fetch succeeds at the HTTP level but yields no
usable CSRF field (input tag absent, value attribute missing, or value
empty), `login()` fails with `CronometerAuthError` and the request trace
contains only the login-page GET: the credentialed login POST and the later
GWT steps are never attempted, and the identity fields are unchanged. -/
theorem login_missing_csrf_aborts (config : GWTConfig) (email password : String)
    (w : LoginWorld) (st : ClientState)
    (hs : raiseForStatus w.loginPage.status = Except.ok ())
    (h : w.loginPage.anticsrf = none ∨ w.loginPage.anticsrf = some none ∨
         w.loginPage.anticsrf = some (some "")) :
    ∃ msg, CronometerClient.login config email password w st =
      (Except.error (PyError.authError msg), st, [Effect.getLoginPage]) := by
  have hcsrf : ∃ msg, extract_csrf_token w.loginPage =
      Except.error (PyError.authError msg) := by
    rcases h with h | h | h
    · exact ⟨"Could not find CSRF token in login page", by simp [extract_csrf_token, hs, h]⟩
    · exact ⟨"CSRF token value is missing or invalid", by simp [extract_csrf_token, hs, h]⟩
    · exact ⟨"CSRF token value is missing or invalid", by simp [extract_csrf_token, hs, h]⟩
  obtain ⟨msg, hmsg⟩ := hcsrf
  exact ⟨msg, by simp [CronometerClient.login, hmsg]⟩

/-- C7 witness: a login page without the anticsrf input tag. -/
theorem login_missing_csrf_aborts_witness :
    ∃ msg, CronometerClient.login
        ⟨DEFAULT_GWT_CONTENT_TYPE, DEFAULT_GWT_MODULE_BASE, "P", "H"⟩ "e" "p"
        ⟨⟨200, none⟩, ⟨200, true, none⟩, ⟨200, "x"⟩, none⟩ ⟨none, none⟩ =
      (Except.error (PyError.authError msg), ⟨none, none⟩, [Effect.getLoginPage]) :=
  login_missing_csrf_aborts ⟨DEFAULT_GWT_CONTENT_TYPE, DEFAULT_GWT_MODULE_BASE, "P", "H"⟩
    "e" "p" ⟨⟨200, none⟩, ⟨200, true, none⟩, ⟨200, "x"⟩, none⟩ ⟨none, none⟩ rfl (Or.inl rfl)

/-! ## Lemmas about `parse_auth_token` -/

lemma split_first_mem (a : Char) (l : List Char) (h : a ∈ l) :
    ∃ u v, l = u ++ a :: v ∧ a ∉ u ∧
      l.takeWhile (fun c => c ≠ a) = u ∧ l.dropWhile (fun c => c ≠ a) = a :: v := by
  induction l with
  | nil => cases h
  | cons c cs ih =>
    by_cases hc : c = a
    · subst hc
      refine ⟨[], cs, rfl, by simp, ?_, ?_⟩
      · exact List.takeWhile_cons_of_neg (by simp)
      · exact List.dropWhile_cons_of_neg (by simp)
    · have hmem : a ∈ cs := by
        rcases List.mem_cons.mp h with h1 | h1
        · exact absurd h1.symm hc
        · exact h1
      obtain ⟨u, v, hl, hnu, htw, hdw⟩ := ih hmem
      refine ⟨c :: u, v, by simp [hl], ?_, ?_, ?_⟩
      · intro hmm
        rcases List.mem_cons.mp hmm with h1 | h1
        · exact hc h1.symm
        · exact hnu h1
      · rw [List.takeWhile_cons_of_pos (by simp [hc]), htw]
      · rw [List.dropWhile_cons_of_pos (by simp [hc]), hdw]

lemma mem_lineOf_append (mid post : List Char) (h : '\n' ∉ mid) :
    '\x22' ∈ lineOf (mid ++ '\x22' :: post) := by
  unfold lineOf
  rw [takeWhile_all_append _ mid _ (fun c hc => by
    simp only [decide_eq_true_eq]
    intro heq
    exact h (heq ▸ hc))]
  simp [List.takeWhile_cons]

lemma hasQuotedPairL_quote_cons {cs : List Char} (h : '\x22' ∈ lineOf cs) :
    hasQuotedPairL ('\x22' :: cs) := by
  unfold lineOf at h
  obtain ⟨u, v, huv⟩ := List.append_of_mem h
  have hnl : '\n' ∉ u := by
    intro hu
    have hmem : '\n' ∈ cs.takeWhile (fun c => c ≠ '\n') := by
      rw [huv]
      exact List.mem_append_left _ hu
    have := List.mem_takeWhile_imp hmem
    simp at this
  refine ⟨[], u, v ++ cs.dropWhile (fun c => c ≠ '\n'), ?_, hnl⟩
  have hcs : cs = u ++ '\x22' :: (v ++ cs.dropWhile (fun c => c ≠ '\n')) := by
    conv_lhs => rw [← List.takeWhile_append_dropWhile (p := fun c => c ≠ '\n') (l := cs)]
    rw [huv]
    simp [List.append_assoc]
  rw [List.nil_append]
  exact congrArg (List.cons '\x22') hcs

lemma hasQuotedPairL_cons_iff_of_ne {c : Char} {cs : List Char} (hc : c ≠ '\x22') :
    hasQuotedPairL (c :: cs) ↔ hasQuotedPairL cs := by
  constructor
  · rintro ⟨pre, mid, post, hl, hm⟩
    cases pre with
    | nil =>
      exfalso
      simp only [List.nil_append, List.cons.injEq] at hl
      exact hc hl.1
    | cons c0 pre0 =>
      simp only [List.cons_append, List.cons.injEq] at hl
      exact ⟨pre0, mid, post, hl.2, hm⟩
  · rintro ⟨pre, mid, post, hl, hm⟩
    exact ⟨c :: pre, mid, post, by simp [hl], hm⟩

lemma hasQuotedPairL_quote_cons_iff {cs : List Char} (h : '\x22' ∉ lineOf cs) :
    hasQuotedPairL ('\x22' :: cs) ↔ hasQuotedPairL cs := by
  constructor
  · rintro ⟨pre, mid, post, hl, hm⟩
    cases pre with
    | nil =>
      exfalso
      simp only [List.nil_append, List.cons.injEq] at hl
      exact h (by rw [hl.2]; exact mem_lineOf_append mid post hm)
    | cons c0 pre0 =>
      simp only [List.cons_append, List.cons.injEq] at hl
      exact ⟨pre0, mid, post, hl.2, hm⟩
  · rintro ⟨pre, mid, post, hl, hm⟩
    exact ⟨'\x22' :: pre, mid, post, by simp [hl], hm⟩

lemma searchToken_eq_none_iff (l : List Char) : searchToken l = none ↔ ¬ hasQuotedPairL l := by
  induction l with
  | nil =>
    simp only [searchToken, true_iff]
    rintro ⟨pre, mid, post, hl, hm⟩
    cases pre <;> simp at hl
  | cons c cs ih =>
    by_cases hcond : c = '\x22' ∧ '\x22' ∈ lineOf cs
    · obtain ⟨hc, hq⟩ := hcond
      subst hc
      simp only [searchToken]
      rw [if_pos (show True ∧ '\x22' ∈ lineOf cs from ⟨trivial, hq⟩)]
      constructor
      · intro h
        cases h
      · intro hn
        exact absurd (hasQuotedPairL_quote_cons hq) hn
    · simp only [searchToken, if_neg hcond]
      rw [ih]
      by_cases hc : c = '\x22'
      · subst hc
        have hq : '\x22' ∉ lineOf cs := fun hq => hcond ⟨rfl, hq⟩
        rw [hasQuotedPairL_quote_cons_iff hq]
      · rw [hasQuotedPairL_cons_iff_of_ne hc]

lemma lastQuote_decomp {line : List Char} (h : '\x22' ∈ line) :
    ∃ a, line = beforeLastQuote line ++ '\x22' :: a ∧ '\x22' ∉ a := by
  have hr : '\x22' ∈ line.reverse := List.mem_reverse.mpr h
  obtain ⟨u, v, hl, hnu, htw, hdw⟩ := split_first_mem '\x22' line.reverse hr
  refine ⟨u.reverse, ?_, ?_⟩
  · unfold beforeLastQuote
    rw [hdw]
    conv_lhs => rw [← List.reverse_reverse line, hl]
    simp [List.reverse_append, List.append_assoc]
  · simp only [List.mem_reverse]
    exact hnu

lemma searchToken_eq_some {l t : List Char} (h : searchToken l = some t) :
    ∃ pre post, l = pre ++ '\x22' :: (t ++ '\x22' :: post) ∧ '\n' ∉ t ∧
      '\x22' ∉ post.takeWhile (fun c => c ≠ '\n') ∧
      ∀ p1 p2, pre = p1 ++ '\x22' :: p2 →
        '\x22' ∉ lineOf (p2 ++ '\x22' :: (t ++ '\x22' :: post)) := by
  induction l with
  | nil => cases h
  | cons c cs ih =>
    by_cases hcond : c = '\x22' ∧ '\x22' ∈ lineOf cs
    · obtain ⟨hc, hq⟩ := hcond
      subst hc
      simp only [searchToken] at h
      rw [if_pos (show True ∧ '\x22' ∈ lineOf cs from ⟨trivial, hq⟩)] at h
      injection h with ht
      obtain ⟨a, hline, hna⟩ := lastQuote_decomp hq
      have hta : lineOf cs = t ++ '\x22' :: a := by rw [← ht]; exact hline
      have hmem_line : ∀ x ∈ lineOf cs, x ≠ '\n' := by
        intro x hx
        have := List.mem_takeWhile_imp hx
        simpa using this
      have hcs : cs = t ++ '\x22' :: (a ++ cs.dropWhile (fun c => c ≠ '\n')) := by
        conv_lhs => rw [← List.takeWhile_append_dropWhile (p := fun c => c ≠ '\n') (l := cs)]
        rw [show cs.takeWhile (fun c => c ≠ '\n') = lineOf cs from rfl, hta]
        simp [List.append_assoc]
      refine ⟨[], a ++ cs.dropWhile (fun c => c ≠ '\n'),
        by rw [List.nil_append]; exact congrArg (List.cons '\x22') hcs, ?_, ?_, ?_⟩
      · intro hmem
        exact hmem_line '\n' (by rw [hta]; exact List.mem_append_left _ hmem) rfl
      · have hna' : ∀ x ∈ a, (fun c => decide (c ≠ '\n')) x = true := by
          intro x hx
          simp only [decide_eq_true_eq]
          exact hmem_line x (by rw [hta]; simp [hx])
        rw [takeWhile_all_append _ a _ hna', takeWhile_dropWhile_eq_nil]
        simpa using hna
      · intro p1 p2 hp
        cases p1 <;> simp at hp
    · simp only [searchToken, if_neg hcond] at h
      obtain ⟨pre, post, hl, hnt, hnp, hleft⟩ := ih h
      refine ⟨c :: pre, post, by simp [hl], hnt, hnp, ?_⟩
      intro p1 p2 hp
      cases p1 with
      | nil =>
        simp only [List.nil_append, List.cons.injEq] at hp
        obtain ⟨hc1, hc2⟩ := hp
        subst hc1
        subst hc2
        have hq : '\x22' ∉ lineOf cs := fun hq => hcond ⟨rfl, hq⟩
        rw [← hl]
        exact hq
      | cons c0 p1x =>
        simp only [List.cons_append, List.cons.injEq] at hp
        exact hleft p1x p2 hp.2

lemma parse_auth_token_eq_none_iff (s : String) :
    parse_auth_token s = none ↔ ¬ hasQuotedPair s := by
  unfold parse_auth_token hasQuotedPair
  rw [Option.map_eq_none']
  exact searchToken_eq_none_iff s.data

lemma parse_auth_token_eq_some {s t : String} (h : parse_auth_token s = some t) :
    searchToken s.data = some t.data := by
  unfold parse_auth_token at h
  cases hs : searchToken s.data with
  | none =>
    rw [hs] at h
    cases h
  | some d =>
    rw [hs] at h
    simp only [Option.map_some'] at h
    injection h with h'
    rw [← h']

/-! ## Claim C2: `parse_auth_token` and the first quoted substring (corrected) -/

/-- C2 counterexample: on the input `"a"b"` the first pair of double quotes
encloses `a`, but `parse_auth_token` returns `a"b` — the regex `"(.*)"` is
greedy, so it captures up to the LAST quote on the line, not the first
closing quote. -/
theorem parse_auth_token_counterexample :
    parse_auth_token (⟨['\x22', 'a', '\x22', 'b', '\x22']⟩ : String) =
      some (⟨['a', '\x22', 'b']⟩ : String) ∧
    (⟨['a', '\x22', 'b']⟩ : String) ≠ "a" := by
  constructor
  · rfl
  · decide

/-- C2 amended: `parse_auth_token` returns `none` exactly when the input has
no double-quoted substring (two quotes with no newline between them); when it
returns a token `t`, the input decomposes as `pre ++ quote ++ t ++ quote ++
post` where the opening quote is the FIRST double quote that is closed on its
line (for every quote inside `pre`, no further quote follows before the next
newline, so no earlier position can open a match), `t` contains no newline,
and no further quote follows the closing quote on the same line (greedy: the
closing quote is the last one on the line). In particular an input whose only
quoted run is empty (`""`) decodes to the empty string, not to `none`. -/
theorem parse_auth_token_spec (s : String) :
    (parse_auth_token s = none ↔ ¬ hasQuotedPair s) ∧
    (∀ t, parse_auth_token s = some t →
       '\n' ∉ t.data ∧
       ∃ pre post, s.data = pre ++ '\x22' :: (t.data ++ '\x22' :: post) ∧
         '\x22' ∉ post.takeWhile (fun c => c ≠ '\n') ∧
         ∀ p1 p2, pre = p1 ++ '\x22' :: p2 →
           '\x22' ∉ lineOf (p2 ++ '\x22' :: (t.data ++ '\x22' :: post))) := by
  constructor
  · exact parse_auth_token_eq_none_iff s
  · intro t h
    obtain ⟨pre, post, hl, hnt, hnp, hleft⟩ :=
      searchToken_eq_some (parse_auth_token_eq_some h)
    exact ⟨hnt, pre, post, hl, hnp, hleft⟩

/-- C2 witness: the input `"a(newline)"abc"` decodes to `abc` — the quote
before the newline is not closed on its line, so the match opens at the
second quote — with the full decomposition the amended claim promises,
including the no-earlier-match condition on the prefix. -/
theorem parse_auth_token_spec_witness :
    '\n' ∉ ("abc" : String).data ∧
    ∃ pre post,
      (⟨['\x22', 'a', '\n', '\x22', 'a', 'b', 'c', '\x22', ']']⟩ : String).data =
        pre ++ '\x22' :: (("abc" : String).data ++ '\x22' :: post) ∧
      '\x22' ∉ post.takeWhile (fun c => c ≠ '\n') ∧
      ∀ p1 p2, pre = p1 ++ '\x22' :: p2 →
        '\x22' ∉ lineOf (p2 ++ '\x22' :: (("abc" : String).data ++ '\x22' :: post)) :=
  (parse_auth_token_spec ⟨['\x22', 'a', '\n', '\x22', 'a', 'b', 'c', '\x22', ']']⟩).2
    "abc" (by decide)

/-! ## Claim C10: an empty minted token is rejected at the authenticator -/

/-- C10: when the token-minting RPC response (with a non-error HTTP status)
decodes to no token or to the empty token — in particular when its first
quoted substring is `""`, which the codec-level `parse_auth_token` returns as
the empty string — `generate_export_token` raises `GWTVersionError` whose
message carries the first 200 characters of the raw response; consequently a
successfully returned token is never empty. -/
theorem generate_export_token_rejects_empty (config : GWTConfig) (nonce user_id : String)
    (r : GwtResp) (hst : raiseForStatus r.status = Except.ok ()) :
    ((parse_auth_token r.text = none ∨ parse_auth_token r.text = some "") →
       generate_export_token config nonce user_id r =
         Except.error (PyError.gwtVersionError (gwtTokenErrMsg r.text))) ∧
    (∀ tok, generate_export_token config nonce user_id r = Except.ok tok → tok ≠ "") ∧
    gwtTokenErrMsg r.text =
      "Could not parse auth token from GWT response. GWT values may be outdated. Response: " ++
        r.text.take 200 := by
  refine ⟨?_, ?_, rfl⟩
  · rintro (h | h) <;> simp [generate_export_token, hst, h]
  · intro tok htok hemp
    subst hemp
    cases hp : parse_auth_token r.text with
    | none => simp [generate_export_token, hst, hp] at htok
    | some tk =>
      by_cases he : tk = ""
      · simp [generate_export_token, hst, hp, he] at htok
      · simp [generate_export_token, hst, hp, he] at htok

/-- C10 witness: a response whose body is exactly `""` is rejected with the
protocol-version error. -/
theorem generate_export_token_rejects_empty_witness :
    generate_export_token ⟨DEFAULT_GWT_CONTENT_TYPE, DEFAULT_GWT_MODULE_BASE, "P", "H"⟩
        "n" "u" ⟨200, ⟨['\x22', '\x22']⟩⟩ =
      Except.error (PyError.gwtVersionError (gwtTokenErrMsg ⟨['\x22', '\x22']⟩)) :=
  (generate_export_token_rejects_empty ⟨DEFAULT_GWT_CONTENT_TYPE, DEFAULT_GWT_MODULE_BASE,
      "P", "H"⟩ "n" "u" ⟨200, ⟨['\x22', '\x22']⟩⟩ rfl).1 (Or.inr (by decide))

end Pycronometer
